import Mathlib

/-!
Shallow embedding of the Observatory repository's core services
(TimeService, LocationService, AstronomicalService) and proofs of the
specification claims about them.

Modelling conventions:
* JS floating-point numbers are modelled as `ℚ` wherever the source only
  performs field arithmetic, `Math.floor`, `Math.round` and `%`; values
  produced through transcendental functions (`Math.cos`, `Math.sin`,
  `Math.sqrt`, `Math.log10`) are modelled as `ℝ`.
* A luxon `DateTime` denotes an instant; for the time service it is modelled
  as rational hours since an arbitrary epoch (luxon zone conversions such as
  `toUTC()` keep the instant, `plus({minutes: m})` adds `m / 60` hours);
  for the astronomical service, times are rational days (the `tt` field of
  `AstroTime` used by the eclipse search).
* External collaborators (the `astronomy-engine` library, the IANA zone
  database consulted through luxon) are passed in as explicit parameters:
  the embedding quantifies over their outputs instead of recomputing them.
* `Math.floor` is `Int.floor`, `Math.round` is Mathlib's `round`
  (both round half-up: `round x = ⌊x + 1/2⌋`), and the JS `%` operator is
  `jsFmod` below (remainder with the sign of the dividend).
* Callbacks are identified by natural numbers; each state-mutating method
  returns, next to the updated service, the list of callback invocations
  it performs, in order, as `(callback id, state passed to it)` pairs.
-/

namespace Observatory

/-- Truncation toward zero, the rounding used by the JS `%` operator. -/
def qtrunc (q : ℚ) : ℤ := if 0 ≤ q then ⌊q⌋ else ⌈q⌉

/-- The JS `%` operator on numbers: remainder with the sign of the dividend. -/
def jsFmod (a b : ℚ) : ℚ := a - b * qtrunc (a / b)

/-! ## TimeService (first variant, `src/services/TimeService.ts`)

State of `TimeServiceImpl`: `currentTime` is an instant in rational hours,
`offset` is the manual offset in minutes, `longitude`/`latitude` in degrees. -/

structure TimeServiceState where
  currentTime : ℚ
  timezone : String
  offset : ℚ
  longitude : ℚ
  latitude : ℚ
deriving DecidableEq

/-- `getCurrentTime()`: `this.state.currentTime.plus({ minutes: this.state.offset })`. -/
def getCurrentTime (s : TimeServiceState) : ℚ :=
  s.currentTime + s.offset / 60

/-- `getUTCTime()`: `this.getCurrentTime().toUTC()`; `toUTC` keeps the instant. -/
def getUTCTime (s : TimeServiceState) : ℚ :=
  getCurrentTime s

/-- `getSolarTime()` of the first variant: UTC instant plus
`longitude * 4` minutes; the source comment notes it does not apply an
equation-of-time correction. -/
def getSolarTime (s : TimeServiceState) : ℚ :=
  let utcTime := getUTCTime s
  let longitudeCorrection := s.longitude * 4
  utcTime + longitudeCorrection / 60

/-- `startOf('day')` of a luxon `DateTime` in a zone sitting `z` hours ahead
of the reference timeline: the most recent local midnight. -/
def startOfDay (z t : ℚ) : ℚ :=
  24 * ⌊(t + z) / 24⌋ - z

/-- `getSiderealTime()` of the first variant. `gst` is the Greenwich sidereal
time in hours returned by the `astronomy-engine` collaborator
(`SiderealTime(astroTime)`) for the current instant, and `z` is the zone
offset (hours) of the local zone of `currentTime`. -/
def getSiderealTime (gst z : ℚ) (s : TimeServiceState) : ℚ :=
  let lst := gst + s.longitude / 15
  let normalizedLst := jsFmod (jsFmod lst 24 + 24) 24
  let today := startOfDay z (getCurrentTime s)
  today + normalizedLst

/-- `dateTimeToJulianDate` (identical in both variants): Julian date from the
calendar fields of the `DateTime`. -/
def dateTimeToJulianDate (year month dayOfMonth : ℤ) (hour minute second : ℚ) : ℚ :=
  let day : ℚ := dayOfMonth + (hour + minute / 60 + second / 3600) / 24
  let a : ℤ := ⌊(14 - (month : ℚ)) / 12⌋
  let y : ℤ := year + 4800 - a
  let m : ℤ := month + 12 * a - 3
  day + ⌊(153 * (m : ℚ) + 2) / 5⌋ + 365 * y + ⌊(y : ℚ) / 4⌋ - ⌊(y : ℚ) / 100⌋ +
    ⌊(y : ℚ) / 400⌋ - 32045

/-- `getSolarTime()` of the second variant: adds the term
`eot = eqPos.ra * 24/360 - (jd % 1) * 24` (hours) on top of the longitude
correction and applies both to `currentTime`. `sunRA` is the right ascension
(hours) obtained from the ephemeris collaborator and `jd` the Julian date of
the current instant. -/
def getSolarTimeV2 (sunRA jd : ℚ) (s : TimeServiceState) : ℚ :=
  let eot := sunRA * 24 / 360 - jsFmod jd 1 * 24
  let longCorrection := s.longitude / 15
  let totalCorrection := (eot + longCorrection) * 60
  getCurrentTime s + totalCorrection / 60

/-- The `TimeServiceImpl` object: current state plus the subscriber list in
registration order. -/
structure TimeServiceImpl where
  state : TimeServiceState
  subscribers : List ℕ
deriving DecidableEq

/-- `notifySubscribers()`: invoke every subscriber with the current state. -/
def TimeServiceImpl.notifySubscribers (svc : TimeServiceImpl) :
    List (ℕ × TimeServiceState) :=
  svc.subscribers.map fun cb => (cb, svc.state)

/-- `subscribe(callback)` of the first variant: push the callback, invoke it
immediately with the current state, and return the updated service together
with the invocations performed inside the call. -/
def TimeServiceImpl.subscribe (svc : TimeServiceImpl) (cb : ℕ) :
    TimeServiceImpl × List (ℕ × TimeServiceState) :=
  (⟨svc.state, svc.subscribers ++ [cb]⟩, [(cb, svc.state)])

/-- `subscribe(callback)` of the second variant: push the callback and return
the unsubscribe function without invoking the callback. -/
def subscribeV2 (svc : TimeServiceImpl) (cb : ℕ) :
    TimeServiceImpl × List (ℕ × TimeServiceState) :=
  (⟨svc.state, svc.subscribers ++ [cb]⟩, [])

/-- The unsubscribe closure returned by `subscribe`: removes every occurrence
of the callback from the subscriber list. -/
def TimeServiceImpl.unsubscribe (svc : TimeServiceImpl) (cb : ℕ) : TimeServiceImpl :=
  ⟨svc.state, svc.subscribers.filter fun c => c ≠ cb⟩

/-- `setTimezone(timezone)`: record the label and broadcast. -/
def TimeServiceImpl.setTimezone (svc : TimeServiceImpl) (timezone : String) :
    TimeServiceImpl × List (ℕ × TimeServiceState) :=
  let svcNext : TimeServiceImpl := ⟨{ svc.state with timezone := timezone }, svc.subscribers⟩
  (svcNext, svcNext.notifySubscribers)

/-- `setOffset(minutes)`: record the manual offset and broadcast. -/
def TimeServiceImpl.setOffset (svc : TimeServiceImpl) (minutes : ℚ) :
    TimeServiceImpl × List (ℕ × TimeServiceState) :=
  let svcNext : TimeServiceImpl := ⟨{ svc.state with offset := minutes }, svc.subscribers⟩
  (svcNext, svcNext.notifySubscribers)

/-- `setLocation(latitude, longitude)` of the time service: store the raw
values and broadcast (no validation here). -/
def TimeServiceImpl.setLocation (svc : TimeServiceImpl) (latitude longitude : ℚ) :
    TimeServiceImpl × List (ℕ × TimeServiceState) :=
  let svcNext : TimeServiceImpl :=
    ⟨{ svc.state with latitude := latitude, longitude := longitude }, svc.subscribers⟩
  (svcNext, svcNext.notifySubscribers)

/-- The 1-second interval body started by `startTimeUpdate()`: set
`currentTime` to the wall clock and broadcast. -/
def TimeServiceImpl.tick (svc : TimeServiceImpl) (now : ℚ) :
    TimeServiceImpl × List (ℕ × TimeServiceState) :=
  let svcNext : TimeServiceImpl := ⟨{ svc.state with currentTime := now }, svc.subscribers⟩
  (svcNext, svcNext.notifySubscribers)

/-! ## LocationService (`src/services/LocationService.ts`)

Latitudes/longitudes/altitudes and timestamps are `ℚ`; the Cartesian and UTM
easting/northing values go through `Math.sin`/`Math.cos`/`Math.sqrt` and are
therefore `ℝ`. -/

structure LocationData where
  latitude : ℚ
  longitude : ℚ
  altitude : ℚ
  accuracy : Option ℚ
  timestamp : Option ℚ
deriving DecidableEq

inductive Hemisphere
  | N
  | S
deriving DecidableEq

structure UTMCoords where
  zone : ℤ
  easting : ℝ
  northing : ℝ
  hemisphere : Hemisphere

structure Cartesian where
  x : ℝ
  y : ℝ
  z : ℝ

structure CoordinateSystem where
  latitude : ℚ
  longitude : ℚ
  altitude : ℚ
  cartesian : Cartesian
  utm : Option UTMCoords

structure TimezoneInfo where
  name : String
  abbreviation : String
  offset : ℤ
  isDST : Bool
  dstOffset : Option ℤ
deriving DecidableEq

/-- The civil-time environment `calculateTimezone` consults through luxon
(`setZone`, `zoneName`, `offsetNameShort`, `isInDST`), indexed by the basic
offset in minutes. -/
structure TzEnv where
  zoneName : ℤ → Option String
  offsetNameShort : ℤ → Option String
  isInDST : ℤ → Bool

/-- Stored result of `getAstronomicalPosition`; only carried around by the
state, so the fields that matter to the claims are kept abstractly as `ℚ`
and optional instants. -/
structure AstronomicalPosition where
  sunAzimuth : ℚ
  sunAltitude : ℚ
  sunDistance : ℚ
  moonAzimuth : ℚ
  moonAltitude : ℚ
  moonDistance : ℚ
  moonPhaseValue : ℚ
  sunrise : Option ℚ
  sunset : Option ℚ

structure LocationServiceState where
  currentLocation : Option LocationData
  coordinateSystem : Option CoordinateSystem
  timezone : Option TimezoneInfo
  astronomicalPosition : Option AstronomicalPosition
  isGPSEnabled : Bool
  lastUpdate : ℚ

/-- The `LocationServiceImpl` object: state plus subscribers in registration
order. -/
structure LocationServiceImpl where
  state : LocationServiceState
  subscribers : List ℕ

/-- `notifySubscribers()` of the location service. -/
def LocationServiceImpl.notifySubscribers (svc : LocationServiceImpl) :
    List (ℕ × LocationServiceState) :=
  svc.subscribers.map fun cb => (cb, svc.state)

/-- `updateState(updates)`: merge the updates (given as a full-state
transformer), stamp `lastUpdate`, and broadcast. -/
def LocationServiceImpl.updateState (svc : LocationServiceImpl)
    (updates : LocationServiceState → LocationServiceState) (now : ℚ) :
    LocationServiceImpl × List (ℕ × LocationServiceState) :=
  let svcNext : LocationServiceImpl :=
    ⟨{ updates svc.state with lastUpdate := now }, svc.subscribers⟩
  (svcNext, svcNext.notifySubscribers)

/-- `calculateUTM(lat, lng)`: zone and hemisphere from the stated formulas,
easting/northing from the simplified projection around the zone's central
meridian. -/
noncomputable def calculateUTM (lat lng : ℚ) : UTMCoords :=
  let zone : ℤ := ⌊(lng + 180) / 6⌋ + 1
  let hemisphere : Hemisphere := if lat ≥ 0 then .N else .S
  let latRad : ℝ := (lat : ℝ) * Real.pi / 180
  let lngRad : ℝ := (lng : ℝ) * Real.pi / 180
  let centralMeridian : ℝ := ((zone : ℝ) - 1) * 6 - 180 + 3
  let centralMeridianRad : ℝ := centralMeridian * Real.pi / 180
  let a : ℝ := 6378137
  let k0 : ℝ := 0.9996
  let deltaLng : ℝ := lngRad - centralMeridianRad
  let easting : ℝ := 500000 + k0 * a * deltaLng * Real.cos latRad
  let northing : ℝ := k0 * a * latRad + (if lat < 0 then 10000000 else 0)
  { zone := zone, easting := easting, northing := northing, hemisphere := hemisphere }

/-- `calculateCoordinateSystem(lat, lng, alt)`: WGS84 Cartesian coordinates
plus the UTM block. -/
noncomputable def calculateCoordinateSystem (lat lng alt : ℚ) : CoordinateSystem :=
  let R : ℝ := 6378137
  let f : ℝ := 1 / 298.257223563
  let e2 : ℝ := 2 * f - f * f
  let latRad : ℝ := (lat : ℝ) * Real.pi / 180
  let lngRad : ℝ := (lng : ℝ) * Real.pi / 180
  let N : ℝ := R / Real.sqrt (1 - e2 * Real.sin latRad * Real.sin latRad)
  let x : ℝ := (N + (alt : ℝ)) * Real.cos latRad * Real.cos lngRad
  let y : ℝ := (N + (alt : ℝ)) * Real.cos latRad * Real.sin lngRad
  let z : ℝ := (N * (1 - e2) + (alt : ℝ)) * Real.sin latRad
  { latitude := lat, longitude := lng, altitude := alt,
    cartesian := { x := x, y := y, z := z },
    utm := some (calculateUTM lat lng) }

/-- `calculateTimezone(lat, lng)`: base offset `Math.round(lng / 15) * 60`
minutes; name, abbreviation and DST flag resolved against the civil-time
environment, with the synthesized `UTC±H:MM` label as fallback. -/
def calculateTimezone (env : TzEnv) (lat lng : ℚ) : TimezoneInfo :=
  let baseOffset : ℤ := round (lng / 15) * 60
  let minutesPart : String :=
    let s := toString (baseOffset % 60).natAbs
    if s.length < 2 then "0" ++ s else s
  let fallbackName : String :=
    "UTC" ++ (if baseOffset ≥ 0 then "+" else "") ++ toString ⌊(baseOffset : ℚ) / 60⌋ ++
      ":" ++ minutesPart
  let timezoneName : String := (env.zoneName baseOffset).getD fallbackName
  { name := timezoneName
    abbreviation := (env.offsetNameShort baseOffset).getD "UTC"
    offset := baseOffset
    isDST := env.isInDST baseOffset
    dstOffset := some (if env.isInDST baseOffset then 60 else 0) }

/-- `setLocation(latitude, longitude, altitude = 0)`: validate, then derive
the coordinate system and timezone and commit them through `updateState`.
The result is `(thrown error, service after the call, invocations)`; a
thrown validation error leaves the service untouched and performs no
invocation, because the method mutates nothing before validating.
(The asynchronous `updateAstronomicalPosition` follow-up is outside this
synchronous step.) -/
noncomputable def LocationServiceImpl.setLocation (svc : LocationServiceImpl)
    (env : TzEnv) (latitude longitude altitude now : ℚ) :
    Option String × LocationServiceImpl × List (ℕ × LocationServiceState) :=
  if latitude < -90 ∨ latitude > 90 then
    (some "Latitude must be between -90 and 90 degrees", svc, [])
  else if longitude < -180 ∨ longitude > 180 then
    (some "Longitude must be between -180 and 180 degrees", svc, [])
  else
    let location : LocationData :=
      { latitude := latitude, longitude := longitude, altitude := altitude,
        accuracy := none, timestamp := some now }
    let coordinateSystem := calculateCoordinateSystem latitude longitude altitude
    let timezone := calculateTimezone env latitude longitude
    let (svcNext, events) := svc.updateState
      (fun st => { st with
        currentLocation := some location
        coordinateSystem := some coordinateSystem
        timezone := some timezone }) now
    (none, svcNext, events)

/-- `subscribe(callback)` of the location service: push, invoke immediately
with the current state, return the unsubscribe closure. -/
def LocationServiceImpl.subscribe (svc : LocationServiceImpl) (cb : ℕ) :
    LocationServiceImpl × List (ℕ × LocationServiceState) :=
  (⟨svc.state, svc.subscribers ++ [cb]⟩, [(cb, svc.state)])

/-- The unsubscribe closure of the location service. -/
def LocationServiceImpl.unsubscribe (svc : LocationServiceImpl) (cb : ℕ) :
    LocationServiceImpl :=
  ⟨svc.state, svc.subscribers.filter fun c => c ≠ cb⟩

/-! ## AstronomicalService (`src/services/AstronomicalService.ts`)

Times in this service are rational days (the `tt` field of `AstroTime`).
The `astronomy-engine` collaborator is an explicit parameter. -/

/-- Observer coordinates handed to the astronomical service
(`LocationCoordinates`): `altitude` is optional, defaulted with `|| 0`. -/
structure LocationCoordinates where
  latitude : ℚ
  longitude : ℚ
  altitude : Option ℚ
deriving DecidableEq

def MOON_PHASE_NAMES : List String :=
  ["New Moon", "Waxing Crescent", "First Quarter", "Waxing Gibbous",
   "Full Moon", "Waning Gibbous", "Last Quarter", "Waning Crescent"]

/-- Result record of `getMoonPhase`. `phase` and `illumination` are `ℝ`
because the latter goes through `Math.cos`. -/
structure MoonPhase where
  phase : ℝ
  phaseName : Option String
  illumination : ℝ
  nextNewMoon : ℚ
  nextFullMoon : ℚ
  age : ℚ

/-- The moon-phase primitives of the collaborator:
`MoonPhase(astroTime)` as a function of the instant, and
`SearchMoonPhase(targetPhase, time, limitDays)` where `none` models a
thrown search failure. -/
structure MoonEngine where
  moonPhaseAt : ℚ → ℝ
  searchMoonPhase : ℝ → ℚ → ℚ → Option ℚ

/-- `findNextMoonPhase(startTime, targetPhase)`: 40-day forward search with
the `+15 days` fallback on failure. -/
def findNextMoonPhase (eng : MoonEngine) (startTime : ℚ) (targetPhase : ℝ) : ℚ :=
  match eng.searchMoonPhase targetPhase startTime 40 with
  | some t => t
  | none => startTime + 15

/-- `findPreviousMoonPhase(startTime, targetPhase)`: search forward from 30
days back, with the `-15 days` fallback on failure. -/
def findPreviousMoonPhase (eng : MoonEngine) (startTime : ℚ) (targetPhase : ℝ) : ℚ :=
  match eng.searchMoonPhase targetPhase (startTime - 30) 40 with
  | some t => t
  | none => startTime - 15

/-- JS `%` on integers (sign of the dividend), used for
`Math.round(phase * 8) % 8`. -/
def jsIntMod (a b : ℤ) : ℤ := a - b * (a / b)

/-- `getMoonPhase(time)`: phase from the collaborator, illumination by the
cosine law, 8-way phase name (a JS out-of-range index reads `undefined`,
modelled as `none`), syzygy search results and age in days. -/
noncomputable def getMoonPhase (eng : MoonEngine) (time : ℚ) : MoonPhase :=
  let phase : ℝ := eng.moonPhaseAt time
  let illumination : ℝ := (1 - Real.cos (phase * 2 * Real.pi)) * 50
  let phaseIndex : ℤ := jsIntMod (round (phase * 8)) 8
  let phaseName : Option String :=
    if phaseIndex ≥ 0 then MOON_PHASE_NAMES.get? phaseIndex.toNat else none
  let nextNewMoon := findNextMoonPhase eng time 0
  let nextFullMoon := findNextMoonPhase eng time 0.5
  let lastNewMoon := findPreviousMoonPhase eng time 0
  let age := time - lastNewMoon
  { phase := phase, phaseName := phaseName, illumination := illumination,
    nextNewMoon := nextNewMoon, nextFullMoon := nextFullMoon, age := age }

/-! ### Eclipse search -/

inductive EclipseType
  | solar
  | lunar
deriving DecidableEq

structure EclipseEvent where
  etype : EclipseType
  date : ℚ
  magnitude : ℚ
  obscuration : ℚ
  isVisible : Bool
  maxEclipseTime : Option ℚ
  duration : Option ℚ
deriving DecidableEq

/-- `GlobalSolarEclipseInfo` fields used by the code. -/
structure GlobalSolarEclipseInfo where
  peak : ℚ
  obscuration : ℚ
deriving DecidableEq

/-- `LunarEclipseInfo` fields used by the code. -/
structure LunarEclipseInfo where
  peak : ℚ
  obscuration : ℚ
  partBegin : ℚ
  partEnd : ℚ
deriving DecidableEq

/-- `LocalSolarEclipseInfo` fields used by the code. -/
structure LocalSolarEclipseInfo where
  peak : ℚ
  partBegin : ℚ
  partEnd : ℚ
deriving DecidableEq

/-- Outcome of `SearchLocalSolarEclipse`: a thrown error (absorbed by the
`try/catch` of `processSolarEclipse`), a null result, or an eclipse. -/
inductive LocalSearchResult
  | thrown
  | nullResult
  | found (info : LocalSolarEclipseInfo)
deriving DecidableEq

/-- The eclipse-search primitives of the collaborator. For the two global
searches `none` covers both a thrown error and a falsy result, which the
code treats identically (`break`). -/
structure EclipseEngine where
  searchGlobalSolarEclipse : ℚ → Option GlobalSolarEclipseInfo
  searchLunarEclipse : ℚ → Option LunarEclipseInfo
  searchLocalSolarEclipse : ℚ → LocationCoordinates → LocalSearchResult

/-- `processSolarEclipse(eclipse, location)`: local visibility through
`SearchLocalSolarEclipse`; a thrown search yields `null`. -/
def processSolarEclipse (eng : EclipseEngine) (eclipse : GlobalSolarEclipseInfo)
    (location : LocationCoordinates) : Option EclipseEvent :=
  match eng.searchLocalSolarEclipse eclipse.peak location with
  | .thrown => none
  | .nullResult => some
      { etype := .solar, date := eclipse.peak, magnitude := eclipse.obscuration,
        obscuration := eclipse.obscuration * 100, isVisible := false,
        maxEclipseTime := none, duration := none }
  | .found localEclipse => some
      { etype := .solar, date := eclipse.peak, magnitude := eclipse.obscuration,
        obscuration := eclipse.obscuration * 100, isVisible := true,
        maxEclipseTime := some localEclipse.peak,
        duration := some ((localEclipse.partEnd - localEclipse.partBegin) * 24 * 60) }

/-- `processLunarEclipse(eclipse, location)`: always visible, max-eclipse
time is the peak; the location parameter is not consulted. -/
def processLunarEclipse (eclipse : LunarEclipseInfo)
    (location : LocationCoordinates) : Option EclipseEvent :=
  some
    { etype := .lunar, date := eclipse.peak, magnitude := eclipse.obscuration,
      obscuration := eclipse.obscuration * 100, isVisible := true,
      maxEclipseTime := some eclipse.peak,
      duration := some ((eclipse.partEnd - eclipse.partBegin) * 24 * 60) }

/-- The solar `while` loop of `getUpcomingEclipses`, with explicit fuel
(the loop advances the cursor by at least one day per found eclipse, so any
fuel of at least the window length reproduces the source loop). -/
def solarLoop (eng : EclipseEngine) (location : LocationCoordinates) (endTime : ℚ) :
    ℕ → ℚ → List EclipseEvent → List EclipseEvent
  | 0, _, eclipses => eclipses
  | fuel + 1, searchTime, eclipses =>
    if searchTime < endTime then
      match eng.searchGlobalSolarEclipse searchTime with
      | some solarEclipse =>
        if solarEclipse.peak < endTime then
          let eclipsesNext :=
            match processSolarEclipse eng solarEclipse location with
            | some eclipseEvent => eclipses ++ [eclipseEvent]
            | none => eclipses
          solarLoop eng location endTime fuel (solarEclipse.peak + 1) eclipsesNext
        else eclipses
      | none => eclipses
    else eclipses

/-- The lunar `while` loop of `getUpcomingEclipses`, pushing onto the list
already filled by the solar loop. -/
def lunarLoop (eng : EclipseEngine) (location : LocationCoordinates) (endTime : ℚ) :
    ℕ → ℚ → List EclipseEvent → List EclipseEvent
  | 0, _, eclipses => eclipses
  | fuel + 1, searchTime, eclipses =>
    if searchTime < endTime then
      match eng.searchLunarEclipse searchTime with
      | some lunarEclipse =>
        if lunarEclipse.peak < endTime then
          let eclipsesNext :=
            match processLunarEclipse lunarEclipse location with
            | some eclipseEvent => eclipses ++ [eclipseEvent]
            | none => eclipses
          lunarLoop eng location endTime fuel (lunarEclipse.peak + 1) eclipsesNext
        else eclipses
      | none => eclipses
    else eclipses

/-- Comparator of the final `eclipses.sort((a, b) => a.date - b.date)`. -/
def eclipseLE (a b : EclipseEvent) : Prop := a.date ≤ b.date

instance : DecidableRel eclipseLE := fun a b => inferInstanceAs (Decidable (a.date ≤ b.date))

/-- `getUpcomingEclipses(startTime, location, daysToSearch = 365)`: both
forward searches followed by the comparator sort (modelled by a sorting
function — the JS sort returns a permutation ordered by the comparator). -/
def getUpcomingEclipses (eng : EclipseEngine) (startTime : ℚ)
    (location : LocationCoordinates) (daysToSearch : ℚ) (fuel : ℕ) :
    List EclipseEvent :=
  let endTime := startTime + daysToSearch
  let afterSolar := solarLoop eng location endTime fuel startTime []
  let eclipses := lunarLoop eng location endTime fuel startTime afterSolar
  eclipses.insertionSort eclipseLE

instance : IsTotal EclipseEvent eclipseLE :=
  ⟨fun a b => le_total a.date b.date⟩

instance : IsTrans EclipseEvent eclipseLE :=
  ⟨fun _ _ _ hab hbc => le_trans hab hbc⟩

/-- An instant is a solar-eclipse peak of the collaborator if some global
solar search can return it. -/
def SolarDate (eng : EclipseEngine) (d : ℚ) : Prop :=
  ∃ t e, eng.searchGlobalSolarEclipse t = some e ∧ e.peak = d

/-- An instant is a lunar-eclipse peak of the collaborator if some lunar
search can return it. -/
def LunarDate (eng : EclipseEngine) (d : ℚ) : Prop :=
  ∃ t e, eng.searchLunarEclipse t = some e ∧ e.peak = d

/-! ### Concrete fixtures used by witnesses and counterexamples -/

def st0 : TimeServiceState :=
  { currentTime := 0, timezone := "UTC", offset := 0, longitude := 0, latitude := 0 }

def tsvc0 : TimeServiceImpl := { state := st0, subscribers := [] }

def env0 : TzEnv :=
  { zoneName := fun _ => none, offsetNameShort := fun _ => none, isInDST := fun _ => false }

def lsvc0 : LocationServiceImpl :=
  { state :=
      { currentLocation := none, coordinateSystem := none, timezone := none,
        astronomicalPosition := none, isGPSEnabled := false, lastUpdate := 0 }
    subscribers := [] }

def loc0 : LocationCoordinates := { latitude := 0, longitude := 0, altitude := none }

/-- A collaborator obeying the library contract: every solar search returns
an eclipse strictly after the queried instant and the lunar search finds
nothing. -/
def eng0 : EclipseEngine :=
  { searchGlobalSolarEclipse := fun t => some { peak := t + 2, obscuration := 1 / 2 }
    searchLunarEclipse := fun _ => none
    searchLocalSolarEclipse := fun _ _ => .nullResult }

/-- A collaborator whose lunar search always finds an eclipse 2.5 days
ahead and whose solar search finds nothing. -/
def eng1 : EclipseEngine :=
  { searchGlobalSolarEclipse := fun _ => none
    searchLunarEclipse := fun t =>
      some { peak := t + 5 / 2, obscuration := 1 / 2, partBegin := 0, partEnd := 1 }
    searchLocalSolarEclipse := fun _ _ => .nullResult }

/-- The single event `eng1` yields in a 3-day window starting at 0. -/
def ev1 : EclipseEvent :=
  { etype := .lunar, date := 5 / 2, magnitude := 1 / 2, obscuration := 50,
    isVisible := true, maxEclipseTime := some (5 / 2), duration := some 1440 }

/-! ## Helper lemmas -/

theorem aux_jsFmod_bounds (x : ℚ) : -24 < jsFmod x 24 ∧ jsFmod x 24 < 24 := by
  unfold jsFmod qtrunc
  by_cases h : 0 ≤ x / 24
  · rw [if_pos h]
    have hle := Int.floor_le (x / 24)
    have hlt := Int.lt_floor_add_one (x / 24)
    constructor <;> [nlinarith; nlinarith]
  · rw [if_neg h]
    have hle := Int.le_ceil (x / 24)
    have hlt := Int.ceil_lt_add_one (x / 24)
    constructor <;> [nlinarith; nlinarith]

theorem aux_jsFmod_nonneg (x : ℚ) (hx : 0 ≤ x) : 0 ≤ jsFmod x 24 := by
  unfold jsFmod qtrunc
  rw [if_pos (by positivity)]
  have hle := Int.floor_le (x / 24)
  nlinarith

theorem aux_jsFmod_decomp (x : ℚ) : ∃ k : ℤ, x - jsFmod x 24 = 24 * k :=
  ⟨qtrunc (x / 24), by unfold jsFmod; ring⟩

/-! ## Claim C7: local sidereal time -/

/-- Claim C7: for every stored longitude and current instant,
`getSiderealTime()` returns the current day's local midnight plus `h` hours,
where `0 ≤ h < 24` and `h` is congruent modulo 24 to the collaborator's
Greenwich sidereal time plus longitude/15. -/
theorem claim_C7 (gst z : ℚ) (s : TimeServiceState) :
    ∃ h : ℚ, getSiderealTime gst z s = startOfDay z (getCurrentTime s) + h ∧
      0 ≤ h ∧ h < 24 ∧ ∃ k : ℤ, h - (gst + s.longitude / 15) = 24 * k := by
  refine ⟨jsFmod (jsFmod (gst + s.longitude / 15) 24 + 24) 24, rfl, ?_, ?_, ?_⟩
  · exact aux_jsFmod_nonneg _ (by linarith [(aux_jsFmod_bounds (gst + s.longitude / 15)).1])
  · exact (aux_jsFmod_bounds _).2
  · obtain ⟨k₁, hk₁⟩ := aux_jsFmod_decomp (gst + s.longitude / 15)
    obtain ⟨k₂, hk₂⟩ := aux_jsFmod_decomp (jsFmod (gst + s.longitude / 15) 24 + 24)
    exact ⟨1 - k₁ - k₂, by push_cast; linarith⟩

/-! ## Claim C4: moon illumination law -/

/-- Claim C4: for every instant (and every behaviour of the moon-phase
collaborator), the returned `illumination` equals
`(1 − cos(2π·phase)) · 50` for the `phase` value returned in the same
structure; it is computed from that value, never set independently. -/
theorem claim_C4 (eng : MoonEngine) (time : ℚ) :
    (getMoonPhase eng time).illumination =
      (1 - Real.cos (2 * Real.pi * (getMoonPhase eng time).phase)) * 50 ∧
    (getMoonPhase eng time).phase = eng.moonPhaseAt time := by
  constructor
  · show (1 - Real.cos (eng.moonPhaseAt time * 2 * Real.pi)) * 50 = _
    rw [show eng.moonPhaseAt time * 2 * Real.pi = 2 * Real.pi * eng.moonPhaseAt time by ring]
    rfl
  · rfl

/-! ## Claim C5: timezone offset estimate -/

/-- Claim C5: for every longitude in [-180,180], the timezone estimate's
offset equals `round(longitude/15) · 60` minutes, is a multiple of 60, and
lies in [-720,840]. -/
theorem claim_C5 (env : TzEnv) (lat lng : ℚ) (h1 : -180 ≤ lng) (h2 : lng ≤ 180) :
    (calculateTimezone env lat lng).offset = round (lng / 15) * 60 ∧
    (60 : ℤ) ∣ (calculateTimezone env lat lng).offset ∧
    -720 ≤ (calculateTimezone env lat lng).offset ∧
    (calculateTimezone env lat lng).offset ≤ 840 := by
  have hoff : (calculateTimezone env lat lng).offset = round (lng / 15) * 60 := rfl
  have hlow : (-12 : ℤ) ≤ round (lng / 15) := by
    rw [round_eq]
    exact Int.le_floor.mpr (by push_cast; linarith)
  have hhigh : round (lng / 15) ≤ 12 := by
    rw [round_eq]
    have h13 : ⌊lng / 15 + 1 / 2⌋ < 13 := Int.floor_lt.mpr (by push_cast; linarith)
    omega
  refine ⟨hoff, hoff ▸ dvd_mul_left 60 (round (lng / 15)), ?_, ?_⟩
  · rw [hoff]; omega
  · rw [hoff]; omega

/-- Witness for C5 at the two scenario longitudes: New York's longitude
gives offset -300 minutes and Tokyo's gives +540 minutes, and the bounds
hold there. -/
theorem claim_C5_witness :
    (calculateTimezone env0 (40.7128 : ℚ) (-74.0060 : ℚ)).offset = -300 ∧
    (calculateTimezone env0 (35.6762 : ℚ) (139.6503 : ℚ)).offset = 540 ∧
    (60 : ℤ) ∣ (calculateTimezone env0 (40.7128 : ℚ) (-74.0060 : ℚ)).offset ∧
    -720 ≤ (calculateTimezone env0 (35.6762 : ℚ) (139.6503 : ℚ)).offset ∧
    (calculateTimezone env0 (35.6762 : ℚ) (139.6503 : ℚ)).offset ≤ 840 :=
  ⟨by rw [show (calculateTimezone env0 (40.7128 : ℚ) (-74.0060 : ℚ)).offset =
        round ((-74.0060 : ℚ) / 15) * 60 from rfl, round_eq]
      norm_num,
   by rw [show (calculateTimezone env0 (35.6762 : ℚ) (139.6503 : ℚ)).offset =
        round ((139.6503 : ℚ) / 15) * 60 from rfl, round_eq]
      norm_num,
   (claim_C5 env0 (40.7128 : ℚ) (-74.0060 : ℚ) (by norm_num) (by norm_num)).2.1,
   (claim_C5 env0 (35.6762 : ℚ) (139.6503 : ℚ) (by norm_num) (by norm_num)).2.2.1,
   (claim_C5 env0 (35.6762 : ℚ) (139.6503 : ℚ) (by norm_num) (by norm_num)).2.2.2⟩

/-! ## Claim C1: setLocation range validation -/

/-- Claim C1: `setLocation` throws exactly when the latitude is outside
[-90,90] or the longitude outside [-180,180]; for in-range inputs it
succeeds and stores the coordinates unchanged (no clamping). -/
theorem claim_C1 (svc : LocationServiceImpl) (env : TzEnv) (lat lng alt now : ℚ) :
    ((lat < -90 ∨ lat > 90 ∨ lng < -180 ∨ lng > 180) →
      (svc.setLocation env lat lng alt now).1.isSome) ∧
    (-90 ≤ lat → lat ≤ 90 → -180 ≤ lng → lng ≤ 180 →
      (svc.setLocation env lat lng alt now).1 = none ∧
      (svc.setLocation env lat lng alt now).2.1.state.currentLocation =
        some { latitude := lat, longitude := lng, altitude := alt,
               accuracy := none, timestamp := some now }) := by
  constructor
  · intro h
    unfold LocationServiceImpl.setLocation
    by_cases hlat : lat < -90 ∨ lat > 90
    · rw [if_pos hlat]; rfl
    · rw [if_neg hlat, if_pos (by tauto)]; rfl
  · intro h1 h2 h3 h4
    unfold LocationServiceImpl.setLocation
    rw [if_neg (by push_neg; constructor <;> linarith),
      if_neg (by push_neg; constructor <;> linarith)]
    exact ⟨rfl, rfl⟩

/-- Witness for C1: latitude 91 is rejected, the New York fix
(40.7128, -74.0060, 0 m) is accepted and stored verbatim. -/
theorem claim_C1_witness :
    (lsvc0.setLocation env0 91 0 0 0).1.isSome ∧
    (lsvc0.setLocation env0 (40.7128 : ℚ) (-74.0060 : ℚ) 0 0).1 = none ∧
    (lsvc0.setLocation env0 (40.7128 : ℚ) (-74.0060 : ℚ) 0 0).2.1.state.currentLocation =
      some { latitude := (40.7128 : ℚ), longitude := (-74.0060 : ℚ), altitude := 0,
             accuracy := none, timestamp := some 0 } :=
  ⟨(claim_C1 lsvc0 env0 91 0 0 0).1 (by norm_num),
   ((claim_C1 lsvc0 env0 (40.7128 : ℚ) (-74.0060 : ℚ) 0 0).2
      (by norm_num) (by norm_num) (by norm_num) (by norm_num)).1,
   ((claim_C1 lsvc0 env0 (40.7128 : ℚ) (-74.0060 : ℚ) 0 0).2
      (by norm_num) (by norm_num) (by norm_num) (by norm_num)).2⟩

/-! ## Claim C9: validation failures are atomic -/

/-- Claim C9: an out-of-range `setLocation` call throws before any state
mutation: the service (its `currentLocation`, `coordinateSystem` and
`timezone` included) is exactly what it was, and no subscriber callback is
invoked by the call. -/
theorem claim_C9 (svc : LocationServiceImpl) (env : TzEnv) (lat lng alt now : ℚ)
    (h : lat < -90 ∨ lat > 90 ∨ lng < -180 ∨ lng > 180) :
    (svc.setLocation env lat lng alt now).1.isSome ∧
    (svc.setLocation env lat lng alt now).2.1 = svc ∧
    (svc.setLocation env lat lng alt now).2.2 = [] := by
  unfold LocationServiceImpl.setLocation
  by_cases hlat : lat < -90 ∨ lat > 90
  · rw [if_pos hlat]; exact ⟨rfl, rfl, rfl⟩
  · rw [if_neg hlat, if_pos (by tauto)]; exact ⟨rfl, rfl, rfl⟩

/-- Witness for C9: a longitude of 200 leaves the service untouched and
notifies nobody. -/
theorem claim_C9_witness :
    (lsvc0.setLocation env0 0 200 0 0).1.isSome ∧
    (lsvc0.setLocation env0 0 200 0 0).2.1 = lsvc0 ∧
    (lsvc0.setLocation env0 0 200 0 0).2.2 = [] :=
  claim_C9 lsvc0 env0 0 200 0 0 (by norm_num)

/-! ## Claim C2: UTM hemisphere and zone -/

/-- Counterexample to C2 as stated: at the valid longitude 180 the computed
zone is `⌊(180+180)/6⌋ + 1 = 61`, outside the claimed range [1,60]. -/
theorem claim_C2_counterexample :
    (lsvc0.setLocation env0 0 180 0 0).1 = none ∧
    (calculateUTM 0 180).zone = 61 ∧ ¬ ((calculateUTM 0 180).zone ≤ 60) := by
  have hz : (calculateUTM 0 180).zone = 61 := by
    show ⌊((180 : ℚ) + 180) / 6⌋ + 1 = 61
    norm_num
  refine ⟨?_, hz, by rw [hz]; decide⟩
  unfold LocationServiceImpl.setLocation
  rw [if_neg (by norm_num), if_neg (by norm_num)]

/-- Claim C2 amended: for valid coordinates the hemisphere is 'N' exactly
when the latitude is nonnegative and the zone is `⌊(lng+180)/6⌋ + 1`, which
lies in [1,60] for longitudes in [-180,180) and reaches 61 only at
longitude 180; `setLocation` stores exactly these derived coordinates. -/
theorem claim_C2_amended (lat lng : ℚ) (h1 : -90 ≤ lat) (h2 : lat ≤ 90)
    (h3 : -180 ≤ lng) (h4 : lng ≤ 180) :
    ((calculateUTM lat lng).hemisphere = .N ↔ 0 ≤ lat) ∧
    (calculateUTM lat lng).zone = ⌊(lng + 180) / 6⌋ + 1 ∧
    1 ≤ (calculateUTM lat lng).zone ∧ (calculateUTM lat lng).zone ≤ 61 ∧
    (lng < 180 → (calculateUTM lat lng).zone ≤ 60) ∧
    ∀ (svc : LocationServiceImpl) (env : TzEnv) (alt now : ℚ),
      (svc.setLocation env lat lng alt now).2.1.state.coordinateSystem =
        some (calculateCoordinateSystem lat lng alt) ∧
      (calculateCoordinateSystem lat lng alt).utm = some (calculateUTM lat lng) := by
  have hzone : (calculateUTM lat lng).zone = ⌊(lng + 180) / 6⌋ + 1 := rfl
  have hhemi : (calculateUTM lat lng).hemisphere =
      (if lat ≥ 0 then Hemisphere.N else Hemisphere.S) := rfl
  have hfloor0 : (0 : ℤ) ≤ ⌊(lng + 180) / 6⌋ :=
    Int.le_floor.mpr (by push_cast; linarith)
  have hfloor60 : ⌊(lng + 180) / 6⌋ < 61 :=
    Int.floor_lt.mpr (by push_cast; linarith)
  refine ⟨?_, hzone, by omega, by omega, ?_, ?_⟩
  · rw [hhemi]
    split_ifs with hge
    · exact iff_of_true rfl hge
    · exact iff_of_false (by decide) hge
  · intro hlt
    have : ⌊(lng + 180) / 6⌋ < 60 := Int.floor_lt.mpr (by push_cast; linarith)
    omega
  · intro svc env alt now
    unfold LocationServiceImpl.setLocation
    rw [if_neg (by push_neg; constructor <;> linarith),
      if_neg (by push_neg; constructor <;> linarith)]
    exact ⟨rfl, rfl⟩

/-- Witness for the amended C2 at the New York scenario: hemisphere 'N',
zone formula giving zone 18, and the coordinate system stored by
`setLocation`. -/
theorem claim_C2_amended_witness :
    ((calculateUTM (40.7128 : ℚ) (-74.0060 : ℚ)).hemisphere = .N ↔ 0 ≤ (40.7128 : ℚ)) ∧
    (calculateUTM (40.7128 : ℚ) (-74.0060 : ℚ)).zone = 18 ∧
    (lsvc0.setLocation env0 (40.7128 : ℚ) (-74.0060 : ℚ) 0 0).2.1.state.coordinateSystem =
      some (calculateCoordinateSystem (40.7128 : ℚ) (-74.0060 : ℚ) 0) :=
  ⟨(claim_C2_amended (40.7128 : ℚ) (-74.0060 : ℚ)
      (by norm_num) (by norm_num) (by norm_num) (by norm_num)).1,
   by rw [(claim_C2_amended (40.7128 : ℚ) (-74.0060 : ℚ)
        (by norm_num) (by norm_num) (by norm_num) (by norm_num)).2.1]
      norm_num,
   ((claim_C2_amended (40.7128 : ℚ) (-74.0060 : ℚ)
      (by norm_num) (by norm_num) (by norm_num) (by norm_num)).2.2.2.2.2
      lsvc0 env0 0 0).1⟩

/-! ## Claim C3: apparent solar time -/

theorem aux_jdNoon : dateTimeToJulianDate 2024 1 1 12 0 0 = 2460311 + 1 / 2 := by
  simp only [dateTimeToJulianDate]
  norm_num

theorem aux_jsFmod_jdNoon : jsFmod (dateTimeToJulianDate 2024 1 1 12 0 0) 1 = 1 / 2 := by
  rw [aux_jdNoon]
  unfold jsFmod qtrunc
  rw [if_pos (by norm_num)]
  norm_num

/-- Counterexample to C3 as stated: at longitude 0 the second variant's
`getSolarTime` is 10.75 hours away from UTC time at 2024-01-01T12:00
(Julian date 2460311.5) when the collaborator reports the Sun near right
ascension 18.75 h — far beyond the claimed 20-minute (1/3-hour)
equation-of-time bound — while the first variant (see the amended theorem)
applies no equation-of-time correction at all. -/
theorem claim_C3_counterexample :
    getSolarTimeV2 (75 / 4) (dateTimeToJulianDate 2024 1 1 12 0 0) st0 - getUTCTime st0 =
      -43 / 4 ∧
    ¬ |getSolarTimeV2 (75 / 4) (dateTimeToJulianDate 2024 1 1 12 0 0) st0 - getUTCTime st0| ≤
      1 / 3 := by
  have heq : getSolarTimeV2 (75 / 4) (dateTimeToJulianDate 2024 1 1 12 0 0) st0 -
      getUTCTime st0 = -43 / 4 := by
    simp only [getSolarTimeV2, getUTCTime, getCurrentTime, st0, aux_jsFmod_jdNoon]
    norm_num
  refine ⟨heq, ?_⟩
  rw [heq, abs_of_neg (by norm_num)]
  norm_num

/-- Claim C3 amended: the first variant computes solar time as exactly
UTC + longitude·4 minutes with no equation-of-time term (so at longitude 0
it equals UTC — trivially within 20 minutes — and at +15° it is exactly
UTC + 1 hour), while the second variant's correction
`ra·24/360 − frac(jd)·24` hours deviates from UTC by more than 10 hours at
a noon Julian date for every possible right ascension in [0,24). -/
theorem claim_C3_amended (s : TimeServiceState) (sunRA : ℚ) :
    getSolarTime s = getUTCTime s + s.longitude * 4 / 60 ∧
    (s.longitude = 0 → getSolarTime s = getUTCTime s) ∧
    (s.longitude = 15 → getSolarTime s = getUTCTime s + 1) ∧
    (s.longitude = 0 → 0 ≤ sunRA → sunRA < 24 →
      10 < |getSolarTimeV2 sunRA (dateTimeToJulianDate 2024 1 1 12 0 0) s - getUTCTime s|) := by
  refine ⟨rfl, ?_, ?_, ?_⟩
  · intro h
    show getUTCTime s + s.longitude * 4 / 60 = getUTCTime s
    rw [h]; ring
  · intro h
    show getUTCTime s + s.longitude * 4 / 60 = getUTCTime s + 1
    rw [h]; norm_num
  · intro h0 hra1 hra2
    have hdiff : getSolarTimeV2 sunRA (dateTimeToJulianDate 2024 1 1 12 0 0) s -
        getUTCTime s = sunRA / 15 - 12 := by
      simp only [getSolarTimeV2, getUTCTime, getCurrentTime, aux_jsFmod_jdNoon, h0]
      ring
    rw [hdiff, abs_of_neg (by linarith)]
    linarith

/-- Witness for the amended C3 at a concrete state (longitude 0, then 15)
and the collaborator right ascension 18.75 h. -/
theorem claim_C3_amended_witness :
    getSolarTime st0 = getUTCTime st0 ∧
    getSolarTime { st0 with longitude := 15 } = getUTCTime { st0 with longitude := 15 } + 1 ∧
    10 < |getSolarTimeV2 (75 / 4) (dateTimeToJulianDate 2024 1 1 12 0 0) st0 - getUTCTime st0| :=
  ⟨(claim_C3_amended st0 0).2.1 rfl,
   (claim_C3_amended { st0 with longitude := 15 } 0).2.2.1 rfl,
   (claim_C3_amended st0 (75 / 4)).2.2.2 rfl (by norm_num) (by norm_num)⟩

/-! ## Claim C8: subscription semantics -/

/-- Counterexample to C8 as stated: the second variant's `subscribe`
performs no invocation inside the call — the immediate callback with the
current state is missing. -/
theorem claim_C8_counterexample :
    (subscribeV2 tsvc0 7).2 = [] ∧ (subscribeV2 tsvc0 7).2 ≠ [(7, tsvc0.state)] :=
  ⟨rfl, by simp [subscribeV2]⟩

/-- Invocations mapped over a subscriber list from which `cb` was filtered
out never target `cb`; this is the shape of every broadcast performed after
the unsubscribe closure ran. -/
theorem aux_unsub_events {α : Type} (subs : List ℕ) (cb : ℕ) (st : α) :
    ∀ e ∈ (subs.filter fun c => c ≠ cb).map (fun c => (c, st)), e.1 ≠ cb := by
  intro e he
  obtain ⟨c, hc, rfl⟩ := List.mem_map.mp he
  simpa using (List.mem_filter.mp hc).2

/-- Claim C8 amended: the first TimeService variant and the LocationService
invoke a new subscriber once, immediately and synchronously, with the
current state; the second TimeService variant performs no immediate
invocation. Every mutation (offset, timezone, location, tick, and the
location service's `updateState`) then notifies the subscribed callback
with the new state, and after the returned unsubscribe runs, no mutation
of either service notifies it again. -/
theorem claim_C8_amended (svc : TimeServiceImpl) (lsvc : LocationServiceImpl) (env : TzEnv)
    (cb : ℕ) (tz : String) (minutes lat lng alt now : ℚ)
    (u : LocationServiceState → LocationServiceState) :
    (svc.subscribe cb).2 = [(cb, svc.state)] ∧
    (lsvc.subscribe cb).2 = [(cb, lsvc.state)] ∧
    (subscribeV2 svc cb).2 = [] ∧
    (cb, ((svc.subscribe cb).1.setOffset minutes).1.state) ∈
      ((svc.subscribe cb).1.setOffset minutes).2 ∧
    (cb, ((svc.subscribe cb).1.setTimezone tz).1.state) ∈
      ((svc.subscribe cb).1.setTimezone tz).2 ∧
    (cb, ((svc.subscribe cb).1.setLocation lat lng).1.state) ∈
      ((svc.subscribe cb).1.setLocation lat lng).2 ∧
    (cb, ((svc.subscribe cb).1.tick now).1.state) ∈ ((svc.subscribe cb).1.tick now).2 ∧
    (cb, ((lsvc.subscribe cb).1.updateState u now).1.state) ∈
      ((lsvc.subscribe cb).1.updateState u now).2 ∧
    (∀ e ∈ ((svc.unsubscribe cb).setOffset minutes).2, e.1 ≠ cb) ∧
    (∀ e ∈ ((svc.unsubscribe cb).setTimezone tz).2, e.1 ≠ cb) ∧
    (∀ e ∈ ((svc.unsubscribe cb).setLocation lat lng).2, e.1 ≠ cb) ∧
    (∀ e ∈ ((svc.unsubscribe cb).tick now).2, e.1 ≠ cb) ∧
    (∀ e ∈ ((lsvc.unsubscribe cb).updateState u now).2, e.1 ≠ cb) ∧
    (∀ e ∈ ((lsvc.unsubscribe cb).setLocation env lat lng alt now).2.2, e.1 ≠ cb) := by
  refine ⟨rfl, rfl, rfl, ?_, ?_, ?_, ?_, ?_, ?_, ?_, ?_, ?_, ?_, ?_⟩
  · exact List.mem_map.mpr ⟨cb, by simp [TimeServiceImpl.subscribe], rfl⟩
  · exact List.mem_map.mpr ⟨cb, by simp [TimeServiceImpl.subscribe], rfl⟩
  · exact List.mem_map.mpr ⟨cb, by simp [TimeServiceImpl.subscribe], rfl⟩
  · exact List.mem_map.mpr ⟨cb, by simp [TimeServiceImpl.subscribe], rfl⟩
  · exact List.mem_map.mpr ⟨cb, by simp [LocationServiceImpl.subscribe], rfl⟩
  · exact aux_unsub_events svc.subscribers cb _
  · exact aux_unsub_events svc.subscribers cb _
  · exact aux_unsub_events svc.subscribers cb _
  · exact aux_unsub_events svc.subscribers cb _
  · exact aux_unsub_events lsvc.subscribers cb _
  · intro e he
    unfold LocationServiceImpl.setLocation at he
    by_cases hlat : lat < -90 ∨ lat > 90
    · rw [if_pos hlat] at he
      exact absurd he (List.not_mem_nil e)
    · rw [if_neg hlat] at he
      by_cases hlng : lng < -180 ∨ lng > 180
      · rw [if_pos hlng] at he
        exact absurd he (List.not_mem_nil e)
      · rw [if_neg hlng] at he
        exact aux_unsub_events lsvc.subscribers cb _ e he

/-- Witness for the amended C8 at a concrete service and callback: the
immediate invocation of both services, the missing immediate invocation of
the second variant, a post-mutation notification, and the post-unsubscribe
silence of each service's mutators. -/
theorem claim_C8_amended_witness :
    (tsvc0.subscribe 7).2 = [(7, tsvc0.state)] ∧
    (lsvc0.subscribe 7).2 = [(7, lsvc0.state)] ∧
    (subscribeV2 tsvc0 7).2 = [] ∧
    (7, ((tsvc0.subscribe 7).1.setOffset 30).1.state) ∈
      ((tsvc0.subscribe 7).1.setOffset 30).2 ∧
    (∀ e ∈ ((tsvc0.unsubscribe 7).setOffset 30).2, e.1 ≠ 7) ∧
    (∀ e ∈ ((lsvc0.unsubscribe 7).updateState id 0).2, e.1 ≠ 7) ∧
    (∀ e ∈ ((lsvc0.unsubscribe 7).setLocation env0 0 0 0 0).2.2, e.1 ≠ 7) := by
  obtain ⟨a, b, c, d, _, _, _, _, i, _, _, _, m, n⟩ :=
    claim_C8_amended tsvc0 lsvc0 env0 7 "America/New_York" 30 0 0 0 0 id
  exact ⟨a, b, c, d, i, m, n⟩

/-! ## Eclipse-loop lemmas for C6 and C10 -/

theorem aux_processSolarEclipse_spec {eng : EclipseEngine} {e : GlobalSolarEclipseInfo}
    {loc : LocationCoordinates} {ev : EclipseEvent}
    (h : processSolarEclipse eng e loc = some ev) :
    ev.etype = .solar ∧ ev.date = e.peak := by
  unfold processSolarEclipse at h
  rcases hres : eng.searchLocalSolarEclipse e.peak loc with _ | _ | info <;> rw [hres] at h
  · exact absurd h (by simp)
  · injection h with h2
    subst h2
    exact ⟨rfl, rfl⟩
  · injection h with h2
    subst h2
    exact ⟨rfl, rfl⟩

theorem aux_processLunarEclipse_spec {e : LunarEclipseInfo} {loc : LocationCoordinates}
    {ev : EclipseEvent} (h : processLunarEclipse e loc = some ev) :
    ev.etype = .lunar ∧ ev.date = e.peak ∧ ev.isVisible = true ∧
      ev.maxEclipseTime = some e.peak := by
  unfold processLunarEclipse at h
  injection h with h2
  subst h2
  exact ⟨rfl, rfl, rfl, rfl⟩

theorem aux_solarLoop_forall (eng : EclipseEngine) (loc : LocationCoordinates) (endTime : ℚ)
    {Q : EclipseEvent → Prop}
    (hQ : ∀ e ev, processSolarEclipse eng e loc = some ev → Q ev) :
    ∀ (fuel : ℕ) (t : ℚ) (acc : List EclipseEvent),
      (∀ ev ∈ acc, Q ev) → ∀ ev ∈ solarLoop eng loc endTime fuel t acc, Q ev := by
  intro fuel
  induction fuel with
  | zero =>
    intro t acc hacc ev hev
    simp only [solarLoop] at hev
    exact hacc ev hev
  | succ n ih =>
    intro t acc hacc ev hev
    by_cases ht : t < endTime
    · rcases hse : eng.searchGlobalSolarEclipse t with _ | se
      · simp only [solarLoop, if_pos ht, hse] at hev
        exact hacc ev hev
      · by_cases hpk : se.peak < endTime
        · rcases hps : processSolarEclipse eng se loc with _ | pev
          · simp only [solarLoop, if_pos ht, hse, if_pos hpk, hps] at hev
            exact ih _ _ hacc ev hev
          · simp only [solarLoop, if_pos ht, hse, if_pos hpk, hps] at hev
            refine ih _ _ ?_ ev hev
            intro x hx
            rcases List.mem_append.mp hx with hx | hx
            · exact hacc x hx
            · rw [List.mem_singleton.mp hx]
              exact hQ se pev hps
        · simp only [solarLoop, if_pos ht, hse, if_neg hpk] at hev
          exact hacc ev hev
    · simp only [solarLoop, if_neg ht] at hev
      exact hacc ev hev

theorem aux_lunarLoop_forall (eng : EclipseEngine) (loc : LocationCoordinates) (endTime : ℚ)
    {Q : EclipseEvent → Prop}
    (hQ : ∀ e ev, processLunarEclipse e loc = some ev → Q ev) :
    ∀ (fuel : ℕ) (t : ℚ) (acc : List EclipseEvent),
      (∀ ev ∈ acc, Q ev) → ∀ ev ∈ lunarLoop eng loc endTime fuel t acc, Q ev := by
  intro fuel
  induction fuel with
  | zero =>
    intro t acc hacc ev hev
    simp only [lunarLoop] at hev
    exact hacc ev hev
  | succ n ih =>
    intro t acc hacc ev hev
    by_cases ht : t < endTime
    · rcases hse : eng.searchLunarEclipse t with _ | se
      · simp only [lunarLoop, if_pos ht, hse] at hev
        exact hacc ev hev
      · by_cases hpk : se.peak < endTime
        · rcases hps : processLunarEclipse se loc with _ | pev
          · simp only [lunarLoop, if_pos ht, hse, if_pos hpk, hps] at hev
            exact ih _ _ hacc ev hev
          · simp only [lunarLoop, if_pos ht, hse, if_pos hpk, hps] at hev
            refine ih _ _ ?_ ev hev
            intro x hx
            rcases List.mem_append.mp hx with hx | hx
            · exact hacc x hx
            · rw [List.mem_singleton.mp hx]
              exact hQ se pev hps
        · simp only [lunarLoop, if_pos ht, hse, if_neg hpk] at hev
          exact hacc ev hev
    · simp only [lunarLoop, if_neg ht] at hev
      exact hacc ev hev

theorem aux_solarLoop_dates (eng : EclipseEngine) (loc : LocationCoordinates) (endTime : ℚ)
    (Hs : ∀ u e, eng.searchGlobalSolarEclipse u = some e → u < e.peak) :
    ∀ (fuel : ℕ) (t : ℚ) (acc : List EclipseEvent),
      (∀ ev ∈ acc, SolarDate eng ev.date ∧ ev.date < t) →
      List.Pairwise (fun a b => a.date < b.date) acc →
      (∀ ev ∈ solarLoop eng loc endTime fuel t acc, SolarDate eng ev.date) ∧
      List.Pairwise (fun a b => a.date < b.date) (solarLoop eng loc endTime fuel t acc) := by
  intro fuel
  induction fuel with
  | zero =>
    intro t acc hacc hsort
    simp only [solarLoop]
    exact ⟨fun ev hev => (hacc ev hev).1, hsort⟩
  | succ n ih =>
    intro t acc hacc hsort
    by_cases ht : t < endTime
    · rcases hse : eng.searchGlobalSolarEclipse t with _ | se
      · simp only [solarLoop, if_pos ht, hse]
        exact ⟨fun ev hev => (hacc ev hev).1, hsort⟩
      · have hts : t < se.peak := Hs t se hse
        by_cases hpk : se.peak < endTime
        · rcases hps : processSolarEclipse eng se loc with _ | pev
          · simp only [solarLoop, if_pos ht, hse, if_pos hpk, hps]
            refine ih _ _ (fun ev hev => ⟨(hacc ev hev).1, ?_⟩) hsort
            have := (hacc ev hev).2
            linarith
          · obtain ⟨hptype, hpdate⟩ := aux_processSolarEclipse_spec hps
            simp only [solarLoop, if_pos ht, hse, if_pos hpk, hps]
            refine ih _ _ ?_ ?_
            · intro ev hev
              rcases List.mem_append.mp hev with hev | hev
              · exact ⟨(hacc ev hev).1, by linarith [(hacc ev hev).2]⟩
              · rw [List.mem_singleton.mp hev]
                exact ⟨⟨t, se, hse, hpdate.symm⟩, by rw [hpdate]; linarith⟩
            · rw [List.pairwise_append]
              refine ⟨hsort, List.pairwise_singleton _ _, ?_⟩
              intro a ha b hb
              rw [List.mem_singleton.mp hb, hpdate]
              linarith [(hacc a ha).2]
        · simp only [solarLoop, if_pos ht, hse, if_neg hpk]
          exact ⟨fun ev hev => (hacc ev hev).1, hsort⟩
    · simp only [solarLoop, if_neg ht]
      exact ⟨fun ev hev => (hacc ev hev).1, hsort⟩

theorem aux_lunarLoop_dates (eng : EclipseEngine) (loc : LocationCoordinates) (endTime : ℚ)
    (Hl : ∀ u e, eng.searchLunarEclipse u = some e → u < e.peak)
    (Hdisj : ∀ u v es el, eng.searchGlobalSolarEclipse u = some es →
      eng.searchLunarEclipse v = some el → es.peak ≠ el.peak) :
    ∀ (fuel : ℕ) (t : ℚ) (acc : List EclipseEvent),
      (∀ ev ∈ acc, SolarDate eng ev.date ∨ (LunarDate eng ev.date ∧ ev.date < t)) →
      List.Pairwise (fun a b => a.date ≠ b.date) acc →
      List.Pairwise (fun a b => a.date ≠ b.date) (lunarLoop eng loc endTime fuel t acc) := by
  intro fuel
  induction fuel with
  | zero =>
    intro t acc _ hsort
    simpa only [lunarLoop] using hsort
  | succ n ih =>
    intro t acc hacc hsort
    by_cases ht : t < endTime
    · rcases hse : eng.searchLunarEclipse t with _ | se
      · simpa only [lunarLoop, if_pos ht, hse] using hsort
      · have hts : t < se.peak := Hl t se hse
        by_cases hpk : se.peak < endTime
        · rcases hps : processLunarEclipse se loc with _ | pev
          · simp only [lunarLoop, if_pos ht, hse, if_pos hpk, hps]
            refine ih _ _ (fun ev hev => ?_) hsort
            rcases hacc ev hev with h | ⟨hl, hlt⟩
            · exact Or.inl h
            · exact Or.inr ⟨hl, by linarith⟩
          · obtain ⟨hptype, hpdate, _, _⟩ := aux_processLunarEclipse_spec hps
            simp only [lunarLoop, if_pos ht, hse, if_pos hpk, hps]
            refine ih _ _ ?_ ?_
            · intro ev hev
              rcases List.mem_append.mp hev with hev | hev
              · rcases hacc ev hev with h | ⟨hl, hlt⟩
                · exact Or.inl h
                · exact Or.inr ⟨hl, by linarith⟩
              · rw [List.mem_singleton.mp hev]
                exact Or.inr ⟨⟨t, se, hse, hpdate.symm⟩, by rw [hpdate]; linarith⟩
            · rw [List.pairwise_append]
              refine ⟨hsort, List.pairwise_singleton _ _, ?_⟩
              intro a ha b hb
              rw [List.mem_singleton.mp hb, hpdate]
              rcases hacc a ha with ⟨u, es, hu, hes⟩ | ⟨_, hlt⟩
              · rw [← hes]
                exact Hdisj u t es se hu hse
              · exact ne_of_lt (by linarith)
        · simpa only [lunarLoop, if_pos ht, hse, if_neg hpk] using hsort
    · simpa only [lunarLoop, if_neg ht] using hsort

/-! ## Claim C6: eclipse list tags and ordering -/

/-- Claim C6: under the collaborator's contract (each search returns an
eclipse strictly after the queried instant; a solar and a lunar eclipse
never peak at the same instant), `getUpcomingEclipses` returns events each
tagged solar or lunar, sorted strictly ascending by peak instant — for
every start instant, observer and search window. -/
theorem claim_C6 (eng : EclipseEngine) (startTime : ℚ) (loc : LocationCoordinates)
    (daysToSearch : ℚ) (fuel : ℕ)
    (Hs : ∀ u e, eng.searchGlobalSolarEclipse u = some e → u < e.peak)
    (Hl : ∀ u e, eng.searchLunarEclipse u = some e → u < e.peak)
    (Hdisj : ∀ u v es el, eng.searchGlobalSolarEclipse u = some es →
      eng.searchLunarEclipse v = some el → es.peak ≠ el.peak) :
    (∀ ev ∈ getUpcomingEclipses eng startTime loc daysToSearch fuel,
      ev.etype = .solar ∨ ev.etype = .lunar) ∧
    List.Pairwise (fun a b => a.date < b.date)
      (getUpcomingEclipses eng startTime loc daysToSearch fuel) := by
  constructor
  · intro ev _
    cases hev : ev.etype
    · exact Or.inl rfl
    · exact Or.inr rfl
  · show List.Pairwise (fun a b => a.date < b.date)
      (List.insertionSort eclipseLE
        (lunarLoop eng loc (startTime + daysToSearch) fuel startTime
          (solarLoop eng loc (startTime + daysToSearch) fuel startTime [])))
    have hsolar := aux_solarLoop_dates eng loc (startTime + daysToSearch) Hs fuel startTime []
      (by intro ev hev; cases hev) List.Pairwise.nil
    have hlunar := aux_lunarLoop_dates eng loc (startTime + daysToSearch) Hl Hdisj fuel
      startTime (solarLoop eng loc (startTime + daysToSearch) fuel startTime [])
      (fun ev hev => Or.inl (hsolar.1 ev hev))
      (hsolar.2.imp fun hab => ne_of_lt hab)
    have hperm := List.perm_insertionSort eclipseLE
      (lunarLoop eng loc (startTime + daysToSearch) fuel startTime
        (solarLoop eng loc (startTime + daysToSearch) fuel startTime []))
    have hsorted := List.sorted_insertionSort eclipseLE
      (lunarLoop eng loc (startTime + daysToSearch) fuel startTime
        (solarLoop eng loc (startTime + daysToSearch) fuel startTime []))
    have hne : List.Pairwise (fun a b : EclipseEvent => a.date ≠ b.date)
        (List.insertionSort eclipseLE
          (lunarLoop eng loc (startTime + daysToSearch) fuel startTime
            (solarLoop eng loc (startTime + daysToSearch) fuel startTime []))) :=
      (List.Perm.pairwise_iff (fun h => Ne.symm h) hperm).mpr hlunar
    exact (List.Pairwise.and hsorted hne).imp fun hab => lt_of_le_of_ne hab.1 hab.2

/-- Witness for C6: a 730-day search against a contract-obeying collaborator
returning a solar eclipse 2 days after every query and no lunar eclipse. -/
theorem claim_C6_witness :
    (∀ ev ∈ getUpcomingEclipses eng0 0 loc0 730 800, ev.etype = .solar ∨ ev.etype = .lunar) ∧
    List.Pairwise (fun a b => a.date < b.date) (getUpcomingEclipses eng0 0 loc0 730 800) :=
  claim_C6 eng0 0 loc0 730 800
    (fun u e h => by
      have h2 : ({ peak := u + 2, obscuration := 1 / 2 } : GlobalSolarEclipseInfo) = e :=
        Option.some.inj h
      rw [← h2]
      show u < u + 2
      linarith)
    (fun _ e h => by cases h)
    (fun _ _ _ _ _ hl => by cases hl)

/-! ## Claim C10: lunar eclipse visibility -/

/-- Claim C10: every lunar event produced by `getUpcomingEclipses` has
`isVisible = true` and `maxEclipseTime` equal to its peak date, and the
lunar processing ignores the observer location entirely (observer-specific
visibility exists only on the solar path). -/
theorem claim_C10 (eng : EclipseEngine) (startTime : ℚ) (loc : LocationCoordinates)
    (daysToSearch : ℚ) (fuel : ℕ) :
    (∀ ev ∈ getUpcomingEclipses eng startTime loc daysToSearch fuel,
        ev.etype = .lunar → ev.isVisible = true ∧ ev.maxEclipseTime = some ev.date) ∧
    (∀ (eclipse : LunarEclipseInfo) (loc2 : LocationCoordinates),
        processLunarEclipse eclipse loc = processLunarEclipse eclipse loc2) := by
  constructor
  · intro ev hev
    have hev2 : ev ∈ lunarLoop eng loc (startTime + daysToSearch) fuel startTime
        (solarLoop eng loc (startTime + daysToSearch) fuel startTime []) :=
      (List.perm_insertionSort eclipseLE _).mem_iff.mp hev
    refine aux_lunarLoop_forall eng loc (startTime + daysToSearch)
      (Q := fun ev => ev.etype = .lunar →
        ev.isVisible = true ∧ ev.maxEclipseTime = some ev.date)
      ?_ fuel startTime _ ?_ ev hev2
    · intro e pev hp
      obtain ⟨_, h2, h3, h4⟩ := aux_processLunarEclipse_spec hp
      intro _
      exact ⟨h3, by rw [h4, h2]⟩
    · refine aux_solarLoop_forall eng loc (startTime + daysToSearch) ?_ fuel startTime []
        (by intro x hx; cases hx)
      intro e pev hp hl2
      obtain ⟨h1, _⟩ := aux_processSolarEclipse_spec hp
      rw [h1] at hl2
      simp at hl2
  · intro e loc2
    rfl

/-- Witness for C10: a concrete lunar event found by a 3-day search has
`isVisible = true` and its `maxEclipseTime` equal to its date. -/
theorem claim_C10_witness :
    ev1.isVisible = true ∧ ev1.maxEclipseTime = some ev1.date :=
  (claim_C10 eng1 0 loc0 3 2).1 ev1
    (by norm_num [getUpcomingEclipses, solarLoop, lunarLoop, eng1, processLunarEclipse,
      ev1, List.insertionSort, List.orderedInsert, eclipseLE])
    rfl

end Observatory
